import Mathlib

/-!
Shallow embedding of the zero-trust secret-vault core (`src/vault_driver.c`)
and proofs about its lock/unlock state machine, credential check, auto-lock
timer and synchronized read/write path.

Modelling conventions:
* Bytes are `Nat`; the 4096-byte static array `secret_buf` is a `List Nat`
  of length `MAX_SECRET` (static storage is zero-initialized in C).
* `is_unlocked` is an `int` in C that only ever holds 0 or 1; it is a `Bool`.
* The kernel timer is a single slot `lock_timer : Option Nat` holding the
  pending expiry instant in milliseconds (`none` = not pending).  `mod_timer`
  overwrites the slot, matching the kernel's replace-not-stack semantics.
* `copy_to_user`/`copy_from_user` faults (`-EFAULT`, a bad user pointer) and
  `mutex_lock_interruptible` interruption (`-ERESTARTSYS`, a signal) are
  environment failures outside the state machine and are not modelled: user
  buffers are taken to be valid.  The mutex serializes every operation, so
  each operation is one atomic step on the state.
* `ssize_t`/`long` return values are `Int`: negative values are `-errno`.
-/

namespace ZeroTrustVault

/-- Capacity of the secret buffer: `#define MAX_SECRET 4096`. -/
def MAX_SECRET : Nat := 4096

/-- The unlock credential: `#define VAULT_PIN 1337`. -/
def VAULT_PIN : Int := 1337

/-- Linux errno for permission denied, returned as `-EACCES`. -/
def EACCES : Int := 13

/-- Linux errno for an invalid ioctl command, returned as `-EINVAL`. -/
def EINVAL : Int := 22

/-- The ioctl command number `_IOW('v', 1, int)`:
direction `_IOC_WRITE = 1` in bits 30.., size 4 in bits 16..,
magic `'v' = 118` in bits 8.., command number 1 in bits 0... -/
def IOCTL_UNLOCK_VAULT : Nat := (1 <<< 30) + (4 <<< 16) + (118 <<< 8) + 1

/-- Auto-lock window: `msecs_to_jiffies(30000)`, i.e. 30 seconds,
measured here in milliseconds. -/
def LOCK_DURATION_MS : Nat := 30000

/-- The module-global state of the vault:
`secret_buf`, `secret_len`, `is_unlocked` and the pending `lock_timer`
(the instant at which `auto_lock_callback` is scheduled to run,
`none` when no expiry is pending). -/
structure VaultState where
  secret_buf : List Nat
  secret_len : Nat
  is_unlocked : Bool
  lock_timer : Option Nat
deriving Repr, DecidableEq

/-- State after `secret_init`: zeroed buffer, `secret_len = 0`,
locked (`is_unlocked = 0`), no timer pending. -/
def initState : VaultState :=
  { secret_buf := List.replicate MAX_SECRET 0
    secret_len := 0
    is_unlocked := false
    lock_timer := none }

/-- Result of `my_read`: the `ssize_t` return value, the bytes copied to the
user buffer, and the resulting file position `*ppos`. -/
structure ReadOut where
  ret : Int
  data : List Nat
  ppos : Nat
deriving Repr, DecidableEq

/-- `my_read(file, buf, count, ppos)` from `vault_driver.c:59-90`.
Under the mutex: if `is_unlocked == 0` return `-EACCES`;
if `*ppos >= secret_len` return 0 (EOF); otherwise copy
`to_copy = min(count, secret_len - *ppos)` bytes of `secret_buf`
starting at `*ppos` to the user, advance `*ppos` by `to_copy`,
and return `to_copy`.  No module-global variable is written. -/
def my_read (s : VaultState) (count : Nat) (ppos : Nat) : ReadOut :=
  if s.is_unlocked = false then
    { ret := -EACCES, data := [], ppos := ppos }
  else if s.secret_len ≤ ppos then
    { ret := 0, data := [], ppos := ppos }
  else
    let to_copy := min count (s.secret_len - ppos)
    { ret := (to_copy : Int)
      data := (s.secret_buf.drop ppos).take to_copy
      ppos := ppos + to_copy }

/-- Result of `my_write`: the `ssize_t` return value, the new module state,
and the resulting file position `*ppos`. -/
structure WriteOut where
  ret : Int
  state : VaultState
  ppos : Nat
deriving Repr, DecidableEq

/-- `my_write(file, buf, count, ppos)` from `vault_driver.c:92-119`.
Under the mutex: if `is_unlocked == 0` return `-EACCES`;
otherwise copy `to_copy = min(count, MAX_SECRET)` user bytes into the
start of `secret_buf` (bytes beyond `to_copy` keep their old values),
set `secret_len = to_copy`, reset `*ppos = 0`, return `to_copy`.
`data` is the `count` bytes of the user buffer. -/
def my_write (s : VaultState) (data : List Nat) (ppos : Nat) : WriteOut :=
  if s.is_unlocked = false then
    { ret := -EACCES, state := s, ppos := ppos }
  else
    let to_copy := min data.length MAX_SECRET
    { ret := (to_copy : Int)
      state := { s with
                  secret_buf := data.take to_copy ++ s.secret_buf.drop to_copy
                  secret_len := to_copy }
      ppos := 0 }

/-- Result of `my_ioctl`: the `long` return value and the new module state. -/
structure IoctlOut where
  ret : Int
  state : VaultState
deriving Repr, DecidableEq

/-- `my_ioctl(file, cmd, arg)` from `vault_driver.c:122-149`.
For `IOCTL_UNLOCK_VAULT`: read the user pin; on `user_pin == VAULT_PIN`
set `is_unlocked = 1` and `mod_timer(&lock_timer, now + 30s)` (replacing any
pending expiry) and return 0; on mismatch return `-EACCES` without touching
any state.  Any other command returns `-EINVAL`.
`now` is the current time in milliseconds (`jiffies` in the source). -/
def my_ioctl (s : VaultState) (cmd : Nat) (user_pin : Int) (now : Nat) :
    IoctlOut :=
  if cmd = IOCTL_UNLOCK_VAULT then
    if user_pin = VAULT_PIN then
      { ret := 0
        state := { s with
                    is_unlocked := true
                    lock_timer := some (now + LOCK_DURATION_MS) } }
    else
      { ret := -EACCES, state := s }
  else
    { ret := -EINVAL, state := s }

/-- `auto_lock_callback(timer)` from `vault_driver.c:41-47`:
under the mutex, set `is_unlocked = 0`.  It touches no other field. -/
def auto_lock_callback (s : VaultState) : VaultState :=
  { s with is_unlocked := false }

/-- Expiry of the pending timer: the kernel marks the one-shot timer as no
longer pending and runs `auto_lock_callback`. -/
def fire_timer (s : VaultState) : VaultState :=
  auto_lock_callback { s with lock_timer := none }

/-- `secret_exit` from `vault_driver.c:214-222`: `timer_delete_sync`
cancels any pending timer (no callback runs afterwards); the remaining
lines tear down the device node and touch no vault state.  In particular
`is_unlocked` is NOT written. -/
def secret_exit (s : VaultState) : VaultState :=
  { s with lock_timer := none }

/-- One externally triggered operation on the vault. -/
inductive Event where
  | unlock (pin : Int) (now : Nat)
  | doRead (count ppos : Nat)
  | doWrite (data : List Nat) (ppos : Nat)
  | expire
  | shutdown
deriving Repr, DecidableEq

/-- Effect of one event on the module state.  `my_read` writes no
module-global variable, so `doRead` leaves the state unchanged; `expire`
fires the timer only when one is pending. -/
def step (s : VaultState) : Event → VaultState
  | .unlock pin now => (my_ioctl s IOCTL_UNLOCK_VAULT pin now).state
  | .doRead _ _ => s
  | .doWrite data ppos => (my_write s data ppos).state
  | .expire => if s.lock_timer.isSome then fire_timer s else s
  | .shutdown => secret_exit s

/-- Run a sequence of events from a state. -/
def run (s : VaultState) (es : List Event) : VaultState :=
  es.foldl step s

/-- Structural well-formedness maintained by the C code: the buffer is the
fixed 4096-byte array and `secret_len` never exceeds it. -/
def WF (s : VaultState) : Prop :=
  s.secret_buf.length = MAX_SECRET ∧ s.secret_len ≤ MAX_SECRET

instance (s : VaultState) : Decidable (WF s) := by
  unfold WF; infer_instance

lemma wf_initState : WF initState := by
  constructor
  · simp only [initState, List.length_replicate]
  · simp only [initState]
    exact Nat.zero_le _

lemma wf_step (s : VaultState) (e : Event) (h : WF s) : WF (step s e) := by
  obtain ⟨hbuf, hlen⟩ := h
  cases e with
  | unlock pin now =>
      simp only [step, my_ioctl]
      split
      · split
        · exact ⟨hbuf, hlen⟩
        · exact ⟨hbuf, hlen⟩
      · exact ⟨hbuf, hlen⟩
  | doRead count ppos => exact ⟨hbuf, hlen⟩
  | doWrite data ppos =>
      simp only [step, my_write]
      split
      · exact ⟨hbuf, hlen⟩
      · refine ⟨?_, ?_⟩
        · simp only [List.length_append, List.length_take, List.length_drop,
            hbuf]
          omega
        · simp only
          omega
  | expire =>
      simp only [step]
      split
      · exact ⟨hbuf, hlen⟩
      · exact ⟨hbuf, hlen⟩
  | shutdown => exact ⟨hbuf, hlen⟩

lemma wf_run (s : VaultState) (es : List Event) (h : WF s) : WF (run s es) := by
  induction es generalizing s with
  | nil => exact h
  | cons e es ih => exact ih (step s e) (wf_step s e h)

/-- The state right after a successful unlock at time 0 from `initState`. -/
def unlockedState : VaultState :=
  (my_ioctl initState IOCTL_UNLOCK_VAULT VAULT_PIN 0).state

/-- The bytes of the string "hello". -/
def hello : List Nat := [104, 101, 108, 108, 111]

/-- `unlockedState` with the secret "hello" stored. -/
def helloState : VaultState := (my_write unlockedState hello 0).state

lemma wf_unlockedState : WF unlockedState :=
  wf_step initState (Event.unlock VAULT_PIN 0) wf_initState

lemma wf_helloState : WF helloState :=
  wf_step unlockedState (Event.doWrite hello 0) wf_unlockedState

/-- If the valid prefix of the buffer is exactly `X`, a read of `X.length`
bytes at position 0 while unlocked returns exactly `X`. -/
lemma read_all_of_secret (s : VaultState) (X rest : List Nat)
    (hu : s.is_unlocked = true) (hbuf : s.secret_buf = X ++ rest)
    (hlen : s.secret_len = X.length) :
    (my_read s X.length 0).data = X ∧
    (my_read s X.length 0).ret = (X.length : Int) := by
  rcases Nat.eq_zero_or_pos X.length with h0 | hpos
  · rw [List.eq_nil_of_length_eq_zero h0]
    simp [my_read, hu, hlen, h0]
  · have hnot : ¬ X.length ≤ 0 := by omega
    simp only [my_read, hu, Bool.true_eq_false, if_false, hlen, hnot,
      Nat.sub_zero, Nat.min_self, List.drop_zero, hbuf]
    exact ⟨List.take_left' rfl, trivial⟩

/-- Claim C1: a `read` or `write` call succeeds (returning data, possibly
empty, or a bytes-written count: a nonnegative `ssize_t`) if and only if
the vault is unlocked at the moment the mutex is acquired for that call;
whenever it is locked, both calls fail with `-EACCES` (`AccessDenied`),
`read` hands back no bytes and leaves the position alone, and `write`
changes no state: no partial copy is performed. -/
theorem read_write_succeed_iff_unlocked (s : VaultState) (count ppos : Nat)
    (data : List Nat) :
    (0 ≤ (my_read s count ppos).ret ↔ s.is_unlocked = true) ∧
    (0 ≤ (my_write s data ppos).ret ↔ s.is_unlocked = true) ∧
    (s.is_unlocked = false →
      (my_read s count ppos).ret = -EACCES ∧
      (my_read s count ppos).data = [] ∧
      (my_read s count ppos).ppos = ppos ∧
      (my_write s data ppos).ret = -EACCES ∧
      (my_write s data ppos).state = s) := by
  cases h : s.is_unlocked with
  | false =>
      refine ⟨?_, ?_, fun _ => ?_⟩ <;>
        simp [my_read, my_write, h, EACCES]
  | true =>
      refine ⟨?_, ?_, fun hf => by simp at hf⟩
      · by_cases h2 : s.secret_len ≤ ppos <;>
          simp [my_read, h, h2, Int.natCast_nonneg]
      · simp [my_write, h, Int.natCast_nonneg]

/-- Witness for C1, instantiated at the initial (locked) state. -/
theorem read_write_succeed_iff_unlocked_witness :
    (0 ≤ (my_read initState 5 0).ret ↔ initState.is_unlocked = true) ∧
    (0 ≤ (my_write initState [1, 2, 3] 0).ret ↔
      initState.is_unlocked = true) ∧
    (initState.is_unlocked = false →
      (my_read initState 5 0).ret = -EACCES ∧
      (my_read initState 5 0).data = [] ∧
      (my_read initState 5 0).ppos = 0 ∧
      (my_write initState [1, 2, 3] 0).ret = -EACCES ∧
      (my_write initState [1, 2, 3] 0).state = initState) :=
  read_write_succeed_iff_unlocked initState 5 0 [1, 2, 3]

/-- Claim C3: `unlock` with a credential other than `VAULT_PIN = 1337`
fails with the mismatch error (the spec's `InvalidCredential`, realized in
the source as `-EACCES`) and returns the state exactly as it was: secret
bytes, `secret_len`, lock flag and pending timer all unchanged (record
equality covers every field). -/
theorem unlock_mismatch_rejected (s : VaultState) (c : Int) (now : Nat)
    (h : c ≠ VAULT_PIN) :
    (my_ioctl s IOCTL_UNLOCK_VAULT c now).ret = -EACCES ∧
    (my_ioctl s IOCTL_UNLOCK_VAULT c now).state = s := by
  simp [my_ioctl, h]

/-- Witness for C3 at the scenario pin 9999 from the initial state. -/
theorem unlock_mismatch_rejected_witness :
    (9999 : Int) ≠ VAULT_PIN ∧
    (my_ioctl initState IOCTL_UNLOCK_VAULT 9999 0).ret = -EACCES ∧
    (my_ioctl initState IOCTL_UNLOCK_VAULT 9999 0).state = initState :=
  ⟨by decide, unlock_mismatch_rejected initState 9999 0 (by decide)⟩

/-- Claim C4: a successful unlock at time `now` unlocks the store and sets
the single pending deadline to `now + LOCK_DURATION_MS` (30 seconds).  The
theorem holds for every prior state `s`, in particular for any previously
pending `s.lock_timer`: the one timer slot (the model of the kernel's
single `lock_timer`, which `mod_timer` reschedules rather than duplicates)
ends up holding exactly the latest deadline, so at most one expiry is
pending and it is the one of the latest successful unlock. -/
theorem unlock_sets_deadline (s : VaultState) (now : Nat) :
    (my_ioctl s IOCTL_UNLOCK_VAULT VAULT_PIN now).ret = 0 ∧
    (my_ioctl s IOCTL_UNLOCK_VAULT VAULT_PIN now).state.is_unlocked
      = true ∧
    (my_ioctl s IOCTL_UNLOCK_VAULT VAULT_PIN now).state.lock_timer
      = some (now + LOCK_DURATION_MS) := by
  simp [my_ioctl]

/-- Claim C5: writing `data` longer than `MAX_SECRET` while unlocked does
not fail: it stores exactly the first `MAX_SECRET` bytes of `data` as the
new valid secret, sets `secret_len = MAX_SECRET`, and reports
`MAX_SECRET` bytes written, strictly less than the input length. -/
theorem write_truncates_oversized (s : VaultState) (data : List Nat)
    (ppos : Nat) (hu : s.is_unlocked = true)
    (hlen : MAX_SECRET < data.length) :
    (my_write s data ppos).ret = (MAX_SECRET : Int) ∧
    (my_write s data ppos).state.secret_len = MAX_SECRET ∧
    (my_write s data ppos).state.secret_buf.take MAX_SECRET
      = data.take MAX_SECRET ∧
    (my_write s data ppos).ret < (data.length : Int) := by
  have hmin : min data.length MAX_SECRET = MAX_SECRET :=
    Nat.min_eq_right (Nat.le_of_lt hlen)
  simp only [my_write, hu, Bool.true_eq_false, if_false, hmin]
  refine ⟨by simp, by simp, ?_, by exact_mod_cast hlen⟩
  exact List.take_left'
    (by rw [List.length_take]; exact Nat.min_eq_left (Nat.le_of_lt hlen))

/-- Witness for C5: a 4097-byte write into the freshly unlocked state. -/
theorem write_truncates_oversized_witness :
    unlockedState.is_unlocked = true ∧
    MAX_SECRET < (List.replicate 4097 7).length ∧
    ((my_write unlockedState (List.replicate 4097 7) 0).ret
        = (MAX_SECRET : Int) ∧
     (my_write unlockedState (List.replicate 4097 7) 0).state.secret_len
        = MAX_SECRET ∧
     (my_write unlockedState
          (List.replicate 4097 7) 0).state.secret_buf.take MAX_SECRET
        = (List.replicate 4097 7).take MAX_SECRET ∧
     (my_write unlockedState (List.replicate 4097 7) 0).ret
        < ((List.replicate 4097 7).length : Int)) :=
  ⟨rfl, by simp only [List.length_replicate, MAX_SECRET]; omega,
    write_truncates_oversized unlockedState (List.replicate 4097 7) 0 rfl
      (by simp only [List.length_replicate, MAX_SECRET]; omega)⟩

/-- Claim C2: round trip.  While unlocked, `write X` with
`len X ≤ MAX_SECRET` reports exactly `len X` bytes written and resets the
file position to 0; an immediate read of `len X` bytes at that position
(still unlocked, nothing in between) returns exactly `X` - including the
empty `X`, where the read is the end-of-data result `[]`. -/
theorem write_read_roundtrip (s : VaultState) (X : List Nat) (ppos : Nat)
    (hu : s.is_unlocked = true) (hlen : X.length ≤ MAX_SECRET) :
    (my_write s X ppos).ret = (X.length : Int) ∧
    (my_write s X ppos).ppos = 0 ∧
    (my_read (my_write s X ppos).state X.length
        (my_write s X ppos).ppos).data = X ∧
    (my_read (my_write s X ppos).state X.length
        (my_write s X ppos).ppos).ret = (X.length : Int) := by
  have hmin : min X.length MAX_SECRET = X.length := Nat.min_eq_left hlen
  have hw : my_write s X ppos =
      { ret := (X.length : Int)
        state := { s with
                    secret_buf := X ++ s.secret_buf.drop X.length
                    secret_len := X.length }
        ppos := 0 } := by
    simp [my_write, hu, hmin]
  rw [hw]
  have h := read_all_of_secret
      { s with
          secret_buf := X ++ s.secret_buf.drop X.length
          secret_len := X.length }
      X (s.secret_buf.drop X.length) hu rfl rfl
  exact ⟨rfl, rfl, h.1, h.2⟩

/-- Witness for C2: the scenario write "hello", read 5 bytes back. -/
theorem write_read_roundtrip_witness :
    unlockedState.is_unlocked = true ∧ hello.length ≤ MAX_SECRET ∧
    ((my_write unlockedState hello 0).ret = (hello.length : Int) ∧
     (my_write unlockedState hello 0).ppos = 0 ∧
     (my_read (my_write unlockedState hello 0).state hello.length
        (my_write unlockedState hello 0).ppos).data = hello ∧
     (my_read (my_write unlockedState hello 0).state hello.length
        (my_write unlockedState hello 0).ppos).ret
        = (hello.length : Int)) :=
  ⟨rfl, by decide, write_read_roundtrip unlockedState hello 0 rfl (by decide)⟩

lemma step_preserves_lock_iff (s : VaultState) (e : Event)
    (h : s.is_unlocked = false ↔ s.lock_timer = none)
    (hne : e ≠ Event.shutdown) :
    ((step s e).is_unlocked = false ↔ (step s e).lock_timer = none) := by
  cases e with
  | unlock pin now =>
      simp only [step, my_ioctl]
      split
      · split
        · simp
        · exact h
      · exact h
  | doRead count ppos => exact h
  | doWrite data ppos =>
      simp only [step, my_write]
      split
      · exact h
      · exact h
  | expire =>
      simp only [step]
      split
      · simp [fire_timer, auto_lock_callback]
      · exact h
  | shutdown => exact absurd rfl hne

lemma run_preserves_lock_iff (s : VaultState) (es : List Event)
    (h : s.is_unlocked = false ↔ s.lock_timer = none)
    (hne : Event.shutdown ∉ es) :
    ((run s es).is_unlocked = false ↔ (run s es).lock_timer = none) := by
  induction es generalizing s with
  | nil => exact h
  | cons e es ih =>
      simp only [List.mem_cons, not_or] at hne
      exact ih (step s e)
        (step_preserves_lock_iff s e h (fun he => hne.1 he.symm)) hne.2

/-- Claim C6 (amended): in every state reachable from the initial state by
unlock, read, write and timer-expiry operations, the store is locked if
and only if no auto-lock deadline is pending, and each of those operations
that flips the lock flag sets or clears the deadline accordingly.
Shutdown has to be excluded: `secret_exit` cancels the timer without
re-locking, so after a shutdown from the unlocked state the biconditional
fails (see the counterexample). -/
theorem lock_iff_no_deadline (es : List Event)
    (h : Event.shutdown ∉ es) :
    ((run initState es).is_unlocked = false ↔
      (run initState es).lock_timer = none) :=
  run_preserves_lock_iff initState es ⟨fun _ => rfl, fun _ => rfl⟩ h

/-- Witness for C6 at the sequence unlock, then timer expiry. -/
theorem lock_iff_no_deadline_witness :
    Event.shutdown ∉ [Event.unlock 1337 0, Event.expire] ∧
    ((run initState [Event.unlock 1337 0, Event.expire]).is_unlocked
        = false ↔
     (run initState [Event.unlock 1337 0, Event.expire]).lock_timer
        = none) :=
  ⟨by decide,
    lock_iff_no_deadline [Event.unlock 1337 0, Event.expire] (by decide)⟩

/-- Claim C6 counterexample: after `unlock(1337)` followed by shutdown - a
sequence built from the operations the claim quantifies over - the store
is still unlocked while no deadline is pending, because `secret_exit` only
deletes the timer and never writes `is_unlocked`.  This refutes
`locked == true ⇔ unlock_deadline == none` on that reachable state. -/
theorem lock_iff_no_deadline_cex :
    ¬ (((run initState [Event.unlock 1337 0, Event.shutdown]).is_unlocked
          = false) ↔
       ((run initState [Event.unlock 1337 0, Event.shutdown]).lock_timer
          = none)) := by
  decide

/-- Claim C7: a read made while unlocked: if the position is at or beyond
`secret_len` the result is empty with return value 0 (end-of-data, not an
error); otherwise exactly `min count (secret_len - ppos)` bytes of the
secret starting at position `ppos` are returned, and the return value is
that count. -/
theorem read_eof_and_bounds (s : VaultState) (count ppos : Nat)
    (hu : s.is_unlocked = true) (hwf : WF s) :
    (s.secret_len ≤ ppos →
      (my_read s count ppos).ret = 0 ∧ (my_read s count ppos).data = []) ∧
    (ppos < s.secret_len →
      (my_read s count ppos).data
        = (s.secret_buf.drop ppos).take (min count (s.secret_len - ppos)) ∧
      (my_read s count ppos).data.length
        = min count (s.secret_len - ppos) ∧
      (my_read s count ppos).ret
        = ((min count (s.secret_len - ppos) : Nat) : Int)) := by
  obtain ⟨hbuf, hlen⟩ := hwf
  constructor
  · intro hge
    simp [my_read, hu, hge]
  · intro hlt
    have hnot : ¬ s.secret_len ≤ ppos := by omega
    simp only [my_read, hu, Bool.true_eq_false, if_false, hnot]
    refine ⟨by simp, ?_, by simp⟩
    rw [List.length_take, List.length_drop, hbuf]
    omega

/-- Witness for C7: reading 3 bytes at offset 1 of the stored "hello". -/
theorem read_eof_and_bounds_witness :
    helloState.is_unlocked = true ∧ WF helloState ∧
    ((helloState.secret_len ≤ 1 →
      (my_read helloState 3 1).ret = 0 ∧
      (my_read helloState 3 1).data = []) ∧
     (1 < helloState.secret_len →
      (my_read helloState 3 1).data
        = (helloState.secret_buf.drop 1).take
            (min 3 (helloState.secret_len - 1)) ∧
      (my_read helloState 3 1).data.length
        = min 3 (helloState.secret_len - 1) ∧
      (my_read helloState 3 1).ret
        = ((min 3 (helloState.secret_len - 1) : Nat) : Int))) :=
  ⟨rfl, wf_helloState, read_eof_and_bounds helloState 3 1 rfl wf_helloState⟩

/-- Claim C8 counterexample: with secret "hello" stored and the vault
unlocked, a first one-byte read through position 0 advances the shared
position to 1, and a second, textually identical read through the updated
position returns a different byte: `my_read` executes `*ppos += to_copy`
(`vault_driver.c:87`), so a read is not free of side effects on the
cursor state consulted by subsequent reads. -/
theorem read_not_cursor_free_cex :
    (my_read helloState 1 0).ppos ≠ 0 ∧
    (my_read helloState 1 (my_read helloState 1 0).ppos).data
      ≠ (my_read helloState 1 0).data := by
  constructor
  · intro h
    simp only [my_read, helloState, my_write, unlockedState, my_ioctl,
      initState] at h
    revert h
    decide
  · intro h
    simp only [my_read, helloState, my_write, unlockedState, my_ioctl,
      initState, hello] at h
    revert h
    decide

/-- Claim C8 (amended): a read call - denied, end-of-data or successful -
leaves the module state (secret bytes, `secret_len`, lock flag, pending
deadline) unchanged; its one side effect is on the supplied file
position, which advances by exactly the number of bytes returned (zero in
the denied and end-of-data cases).  Reads are deterministic in the
explicit position, so two reads at the same position with no intervening
write return the same bytes, but two sequential reads through a shared
cursor do not. -/
theorem read_frame (s : VaultState) (count ppos : Nat) (hwf : WF s) :
    run s [Event.doRead count ppos] = s ∧
    (my_read s count ppos).ppos
      = ppos + (my_read s count ppos).data.length ∧
    (my_read s count ppos).data.length = (my_read s count ppos).ret.toNat := by
  obtain ⟨hbuf, hlen⟩ := hwf
  refine ⟨rfl, ?_⟩
  cases h : s.is_unlocked with
  | false =>
      have hz : (-EACCES).toNat = 0 := rfl
      simp [my_read, h, hz]
  | true =>
      by_cases h2 : s.secret_len ≤ ppos
      · simp [my_read, h, h2]
      · simp only [my_read, h, Bool.true_eq_false, if_false, h2,
          List.length_take, List.length_drop, hbuf]
        constructor
        · omega
        · rw [Int.toNat_natCast]
          omega

/-- Witness for C8 at a two-byte read near the end of "hello". -/
theorem read_frame_witness :
    WF helloState ∧
    (run helloState [Event.doRead 2 4] = helloState ∧
     (my_read helloState 2 4).ppos
        = 4 + (my_read helloState 2 4).data.length ∧
     (my_read helloState 2 4).data.length
        = (my_read helloState 2 4).ret.toNat) :=
  ⟨wf_helloState, read_frame helloState 2 4 wf_helloState⟩

/-- Claim C9 counterexample: `secret_exit` (`vault_driver.c:214-222`)
deletes the timer and tears down the device node, but never calls any
force-lock and never writes `is_unlocked`.  Shutting down from the
unlocked state therefore leaves the store UNLOCKED, refuting "once
shutdown has run the store is in the LOCKED state". -/
theorem shutdown_leaves_unlocked_cex :
    (secret_exit unlockedState).lock_timer = none ∧
    ¬ ((secret_exit unlockedState).is_unlocked = false) := by
  constructor
  · rfl
  · intro h
    simp only [secret_exit, unlockedState, my_ioctl, initState] at h
    revert h
    decide

/-- Claim C9 (amended): shutdown cancels the pending timer - afterwards no
expiry is pending, so no timer callback can fire past teardown - but it
performs no force-lock: the lock flag, the secret bytes and `secret_len`
are left exactly as they were. -/
theorem shutdown_cancels_timer_only (s : VaultState) :
    (secret_exit s).lock_timer = none ∧
    (secret_exit s).is_unlocked = s.is_unlocked ∧
    (secret_exit s).secret_buf = s.secret_buf ∧
    (secret_exit s).secret_len = s.secret_len :=
  ⟨rfl, rfl, rfl, rfl⟩

/-- Unlocking with the right pin and then reading the whole valid prefix
returns exactly that prefix. -/
lemma unlock_read_back (u : VaultState) (X rest : List Nat) (now : Nat)
    (hbuf : u.secret_buf = X ++ rest) (hlen : u.secret_len = X.length) :
    (my_read (my_ioctl u IOCTL_UNLOCK_VAULT VAULT_PIN now).state
        X.length 0).data = X := by
  have hst : (my_ioctl u IOCTL_UNLOCK_VAULT VAULT_PIN now).state
      = { u with
            is_unlocked := true
            lock_timer := some (now + LOCK_DURATION_MS) } := by
    simp [my_ioctl]
  rw [hst]
  exact (read_all_of_secret
      { u with
          is_unlocked := true
          lock_timer := some (now + LOCK_DURATION_MS) }
      X rest rfl hbuf hlen).1

/-- Claim C10: lock-state transitions never touch the secret: the timer
callback (`auto_lock_callback`), a full timer expiry, and every `unlock`
attempt (any command, any pin, matching or not) leave `secret_buf` and
`secret_len` unchanged.  Consequently a secret written while unlocked
survives the auto-relock and is returned byte-for-byte by a read after
the next successful unlock. -/
theorem lock_transitions_preserve_secret (s : VaultState) (cmd : Nat)
    (pin : Int) (now now2 : Nat) (X : List Nat) (ppos : Nat)
    (hu : s.is_unlocked = true) (hlen : X.length ≤ MAX_SECRET) :
    (auto_lock_callback s).secret_buf = s.secret_buf ∧
    (auto_lock_callback s).secret_len = s.secret_len ∧
    (fire_timer s).secret_buf = s.secret_buf ∧
    (fire_timer s).secret_len = s.secret_len ∧
    (my_ioctl s cmd pin now).state.secret_buf = s.secret_buf ∧
    (my_ioctl s cmd pin now).state.secret_len = s.secret_len ∧
    (my_read (my_ioctl (fire_timer (my_write s X ppos).state)
        IOCTL_UNLOCK_VAULT VAULT_PIN now2).state X.length 0).data = X := by
  have hioctl :
      (my_ioctl s cmd pin now).state.secret_buf = s.secret_buf ∧
      (my_ioctl s cmd pin now).state.secret_len = s.secret_len := by
    simp only [my_ioctl]
    split
    · split
      · exact ⟨rfl, rfl⟩
      · exact ⟨rfl, rfl⟩
    · exact ⟨rfl, rfl⟩
  have hmin : min X.length MAX_SECRET = X.length := Nat.min_eq_left hlen
  have hwbuf : (my_write s X ppos).state.secret_buf
      = X ++ s.secret_buf.drop X.length := by
    simp [my_write, hu, hmin]
  have hwlen : (my_write s X ppos).state.secret_len = X.length := by
    simp [my_write, hu, hmin]
  exact ⟨rfl, rfl, rfl, rfl, hioctl.1, hioctl.2,
    unlock_read_back (fire_timer (my_write s X ppos).state) X
      (s.secret_buf.drop X.length) now2 hwbuf hwlen⟩

/-- Witness for C10: "hello" written, vault expired, unlocked again with
the pin, read back intact; frame parts checked at a wrong-pin ioctl. -/
theorem lock_transitions_preserve_secret_witness :
    unlockedState.is_unlocked = true ∧ hello.length ≤ MAX_SECRET ∧
    ((auto_lock_callback unlockedState).secret_buf
        = unlockedState.secret_buf ∧
     (auto_lock_callback unlockedState).secret_len
        = unlockedState.secret_len ∧
     (fire_timer unlockedState).secret_buf = unlockedState.secret_buf ∧
     (fire_timer unlockedState).secret_len = unlockedState.secret_len ∧
     (my_ioctl unlockedState IOCTL_UNLOCK_VAULT 9999 5).state.secret_buf
        = unlockedState.secret_buf ∧
     (my_ioctl unlockedState IOCTL_UNLOCK_VAULT 9999 5).state.secret_len
        = unlockedState.secret_len ∧
     (my_read (my_ioctl (fire_timer (my_write unlockedState hello 0).state)
        IOCTL_UNLOCK_VAULT VAULT_PIN 40000).state hello.length 0).data
        = hello) :=
  ⟨rfl, by decide,
    lock_transitions_preserve_secret unlockedState IOCTL_UNLOCK_VAULT 9999
      5 40000 hello 0 rfl (by decide)⟩

end ZeroTrustVault
